import Mathlib

/-!
Shallow embedding of the NFT scraper pipeline
(src/utils/nftScraper.js and the HTTP route handlers) in Lean 4.

Modelling conventions:
* JavaScript is dynamically typed; the values that flow into `getTokenURI`
  as token ids may be numbers or strings, so token ids are modelled by
  `JsVal`.  Template-literal interpolation is `JsVal.jsToString`, and the
  JS `Number()` coercion (on inputs that denote natural numbers) is
  `JsVal.toNumber`.
* All network effects (RPC block-number probes, contract calls, HTTP GETs)
  are supplied by an `Env` of oracle functions; a call either returns a
  payload (`Except.ok`) or throws with an error message (`Except.error`).
  A `Web3` handle is identified with the endpoint URL it is bound to.
* The async/await control flow is sequentialised: `Promise.all` over a
  batch resolves in submission order, and the shared mutable
  `tokenURICache` is threaded explicitly as a `Cache` value, taking the
  sequential linearisation of each batch.
* Functions that record which URLs they request additionally return the
  ordered trace of attempted request URLs, so that short-circuiting and
  attempt-order claims are statable.
* `console.log` / `console.error` calls have no observable effect and are
  dropped; likewise the `name()` / `symbol()` debug calls in
  `getTokenURI`, whose results are ignored and whose errors are caught
  locally.
* Metadata JSON documents are modelled by `JsData` with string-valued
  fields; only truthiness and the `image` field are inspected by the code.
-/

/-- A JavaScript value used as a token id: either a number or a string. -/
inductive JsVal where
  | num (n : Nat)
  | str (s : String)
deriving DecidableEq, Repr

/-- Template-literal / `.toString()` rendering of a token id value. -/
def JsVal.jsToString : JsVal → String
  | .num n => toString n
  | .str s => s

/-- Numeric value of a decimal-digit character list, accumulator style
(the fragment of JS `Number()` string coercion exercised here: strings
of decimal digits; anything else is `NaN`, i.e. `none`). -/
def decDigitsVal (acc : Nat) : List Char → Option Nat
  | [] => some acc
  | c :: cs => if c.isDigit then decDigitsVal (acc * 10 + (c.toNat - 48)) cs else none

/-- JS `Number()` coercion on values denoting natural numbers
(`none` plays the role of `NaN`). -/
def JsVal.toNumber : JsVal → Option Nat
  | .num n => some n
  | .str s => decDigitsVal 0 s.data

/-- ASCII lower-casing of one character, as `String.prototype.toLowerCase`
acts on the ASCII range used by hex contract addresses. -/
def jsCharToLower (c : Char) : Char :=
  if c.isUpper then Char.ofNat (c.toNat + 32) else c

/-- JS `s.toLowerCase()` on ASCII strings. -/
def jsToLower (s : String) : String :=
  String.mk (s.data.map jsCharToLower)

/-- Replacement of the first occurrence of `pat` in a character list
(JS `String.prototype.replace` with a string pattern replaces only the
first occurrence). -/
def replaceFirstAux (pat repl : List Char) : List Char → List Char
  | [] => []
  | c :: cs =>
    if pat.isPrefixOf (c :: cs) then repl ++ (c :: cs).drop pat.length
    else c :: replaceFirstAux pat repl cs

/-- JS `s.replace(pat, repl)` with a string pattern: first occurrence only,
identity when the pattern does not occur. -/
def jsReplace (s pat repl : String) : String :=
  String.mk (replaceFirstAux pat.data repl.data s.data)

/-- JS `s.startsWith(p)`. -/
def jsStartsWith (s p : String) : Bool :=
  p.data.isPrefixOf s.data

/-- JS `s.padStart(64, "0")`. -/
def padStart64 (s : String) : String :=
  if s.length ≥ 64 then s
  else String.mk (List.replicate (64 - s.length) '0') ++ s

deriving instance DecidableEq for Except

/-- A fetched JSON document (`response.data`): null, a string, or an
object with string-valued fields.  Only truthiness and the `image` field
are ever inspected. -/
inductive JsData where
  | jnull
  | jstr (s : String)
  | jobj (fields : List (String × String))
deriving DecidableEq, Repr

/-- JS truthiness of a fetched document (`!metadata`). -/
def JsData.truthy : JsData → Bool
  | .jnull => false
  | .jstr s => s ≠ ""
  | .jobj _ => true

/-- Field access `metadata.image` (`none` plays the role of `undefined`). -/
def JsData.image : JsData → Option String
  | .jobj fields => (fields.find? (fun kv => kv.1 = "image")).map (fun kv => kv.2)
  | _ => none

/-- Combined guard `!(!metadata || !metadata.image)` of `processToken`:
the image URL when the document is truthy and carries a truthy `image`
field, `none` otherwise. -/
def JsData.truthyImage (md : JsData) : Option String :=
  if md.truthy then
    match md.image with
    | some s => if s = "" then none else some s
    | none => none
  else none

/-- Downloaded image payload: the bytes together with the resolved
content type. -/
structure ImageData where
  data : List Nat
  contentType : String
deriving DecidableEq, Repr

/-- Network oracle: the outcome of every kind of external call the
scraper can make.  `getBlockNumber` is keyed by endpoint URL; the two
contract-call oracles are keyed by (endpoint URL, contract address,
token id as passed); the HTTP oracles are keyed by request URL, the
binary one returning body bytes and the optional content-type header. -/
structure Env where
  getBlockNumber : String → Except String Nat
  tokenURICall : String → String → JsVal → Except String String
  uriCall : String → String → JsVal → Except String String
  httpGetJson : String → Except String JsData
  httpGetBin : String → Except String (List Nat × Option String)

/-- In-memory `tokenURICache`: a `Map` from cache-key strings to cached
URI strings, modelled as an association list where insertion shadows. -/
def Cache := List (String × String)

instance : DecidableEq Cache := by
  unfold Cache
  infer_instance

/-- Lookup in the cache (`tokenURICache.has` / `tokenURICache.get`). -/
def cacheGet (c : Cache) (k : String) : Option String :=
  (List.find? (fun kv => kv.1 = k) c).map (fun kv => kv.2)

/-- Write-through (`tokenURICache.set`). -/
def cacheSet (c : Cache) (k v : String) : Cache :=
  (k, v) :: c

/-- Cache key generator `getCacheKey`: lower-cased contract address,
a dash, then the interpolated token id. -/
def getCacheKey (contractAddress : String) (tokenId : JsVal) : String :=
  jsToLower contractAddress ++ "-" ++ tokenId.jsToString

/-- RPC provider table `RPC_PROVIDERS`, in declaration order
(JS `Object.entries` preserves string-key insertion order). -/
def RPC_PROVIDERS : List (String × (String → String)) :=
  [ ("infura", fun apiKey => "https://mainnet.infura.io/v3/" ++ apiKey),
    ("alchemy", fun apiKey => "https://eth-mainnet.g.alchemy.com/v2/" ++ apiKey),
    ("ankr", fun _ => "https://rpc.ankr.com/eth"),
    ("cloudflare", fun _ => "https://cloudflare-eth.com"),
    ("public", fun _ => "https://ethereum.publicnode.com") ]

/-- IPFS gateway base URLs `IPFS_GATEWAYS`, in fallback order. -/
def IPFS_GATEWAYS : List String :=
  [ "https://ipfs.io/ipfs/",
    "https://gateway.pinata.cloud/ipfs/",
    "https://dweb.link/ipfs/",
    "https://ipfs.fleek.co/ipfs/",
    "https://gateway.ipfs.io/ipfs/",
    "https://cf-ipfs.com/ipfs/",
    "https://cloudflare-ipfs.com/ipfs/" ]

/-- Endpoint URL of the primary attempt:
`RPC_PROVIDERS[primaryProvider]?.(apiKey) || RPC_PROVIDERS.infura(apiKey)`. -/
def primaryProviderUrl (primaryProvider apiKey : String) : String :=
  match (List.find? (fun p => p.1 = primaryProvider) RPC_PROVIDERS).map (fun p => p.2) with
  | some f => f apiKey
  | none => "https://mainnet.infura.io/v3/" ++ apiKey

/-- Fixed message of the error thrown when every provider failed. -/
def allProvidersFailedMsg : String :=
  "All RPC providers failed. Please check your API keys and network connection."

/-- Fallback loop of `getWeb3Instance`: walk the provider table in order,
skip the entry named like the primary, probe each remaining endpoint once
with `getBlockNumber`, return the first that succeeds; when the table is
exhausted, throw the fixed all-providers-failed error.  Also returns the
ordered trace of probed endpoint URLs. -/
def tryFallbackProviders (env : Env) (primaryProvider apiKey : String) :
    List (String × (String → String)) → Except String String × List String
  | [] => (.error allProvidersFailedMsg, [])
  | (name, f) :: rest =>
    if name = primaryProvider then tryFallbackProviders env primaryProvider apiKey rest
    else
      let url := f apiKey
      match env.getBlockNumber url with
      | .ok _ => (.ok url, [url])
      | .error _ =>
        let r := tryFallbackProviders env primaryProvider apiKey rest
        (r.1, url :: r.2)

/-- Chain client resolver `getWeb3Instance`: probe the primary provider's
endpoint; on success return it, on failure run the fallback loop over
`RPC_PROVIDERS`.  The returned handle is the endpoint URL; the second
component is the ordered trace of probed endpoint URLs. -/
def getWeb3Instance (env : Env) (primaryProvider apiKey : String) :
    Except String String × List String :=
  let purl := primaryProviderUrl primaryProvider apiKey
  match env.getBlockNumber purl with
  | .ok _ => (.ok purl, [purl])
  | .error _ =>
    let r := tryFallbackProviders env primaryProvider apiKey RPC_PROVIDERS
    (r.1, purl :: r.2)

/-- Token URI resolver `getTokenURI`.  Checks the cache by
`getCacheKey`; on a miss it obtains a web3 handle, tries the `tokenURI`
contract method, then the `uri` method with id-placeholder substitution
(the decimal `.toString()` of the token id, `padStart`-ed to 64
characters).  Whichever method succeeds populates the cache.  The
outer `try/catch` turns every thrown error — web3 resolution failure or
both methods failing — into a `null` (`none`) return, leaving the cache
untouched.  Returns (resolved URI or `none`, updated cache). -/
def getTokenURI (env : Env) (cache : Cache) (contractAddress : String)
    (tokenId : JsVal) (infuraApiKey primaryProvider : String) :
    Option String × Cache :=
  let cacheKey := getCacheKey contractAddress tokenId
  match cacheGet cache cacheKey with
  | some v => (some v, cache)
  | none =>
    match (getWeb3Instance env primaryProvider infuraApiKey).1 with
    | .error _ => (none, cache)
    | .ok endpoint =>
      match env.tokenURICall endpoint contractAddress tokenId with
      | .ok tokenURI => (some tokenURI, cacheSet cache cacheKey tokenURI)
      | .error _ =>
        match env.uriCall endpoint contractAddress tokenId with
        | .ok uri =>
          let formattedUri := jsReplace uri "{id}" (padStart64 tokenId.jsToString)
          (some formattedUri, cacheSet cache cacheKey formattedUri)
        | .error _ => (none, cache)

/-- Default error thrown when the gateway loop finishes with no recorded
last error (only reachable with an empty gateway list). -/
def allGatewaysFailedMsg : String := "All IPFS gateways failed"

/-- Default error of the image gateway loop. -/
def allGatewaysFailedImgMsg : String := "All IPFS gateways failed for image"

/-- Strip of the `ipfs://` scheme: `tokenURI.replace("ipfs://", "")`. -/
def stripIpfs (uri : String) : String := jsReplace uri "ipfs://" ""

/-- Gateway loop of `fetchMetadata`: GET `gateway + ipfsHash` for each
gateway in order, returning the first successful response body; when all
fail, throw the last error (or the default message).  Also returns the
ordered trace of requested URLs. -/
def tryGatewaysJson (env : Env) (ipfsHash : String) :
    List String → Option String → Except String JsData × List String
  | [], lastError => (.error (lastError.getD allGatewaysFailedMsg), [])
  | gateway :: rest, _lastError =>
    let gatewayUrl := gateway ++ ipfsHash
    match env.httpGetJson gatewayUrl with
    | .ok d => (.ok d, [gatewayUrl])
    | .error e =>
      let r := tryGatewaysJson env ipfsHash rest (some e)
      (r.1, gatewayUrl :: r.2)

/-- Body of `fetchMetadata`'s `try` block: for an `ipfs://` URI run the
gateway loop over `IPFS_GATEWAYS`; otherwise one direct GET of the URI,
rethrowing its error. -/
def fetchMetadataTry (env : Env) (tokenURI : String) :
    Except String JsData × List String :=
  if jsStartsWith tokenURI "ipfs://" then
    tryGatewaysJson env (stripIpfs tokenURI) IPFS_GATEWAYS none
  else
    match env.httpGetJson tokenURI with
    | .ok d => (.ok d, [tokenURI])
    | .error e => (.error e, [tokenURI])

/-- Resource fetcher `fetchMetadata`: the `try` body above wrapped in the
function's own top-level `catch`, which converts any thrown error into a
`null` (`none`) return to the caller. -/
def fetchMetadata (env : Env) (tokenURI : String) :
    Option JsData × List String :=
  let r := fetchMetadataTry env tokenURI
  (r.1.toOption, r.2)

/-- Resolution of the `content-type` response header:
`response.headers["content-type"] || "image/jpeg"` (an absent or empty
header falls back to the default). -/
def contentTypeOf (header : Option String) : String :=
  match header with
  | some s => if s = "" then "image/jpeg" else s
  | none => "image/jpeg"

/-- Gateway loop of `fetchImageData`: like `tryGatewaysJson` but with a
binary GET, packaging the body bytes with the resolved content type. -/
def tryGatewaysBin (env : Env) (ipfsHash : String) :
    List String → Option String → Except String ImageData × List String
  | [], lastError => (.error (lastError.getD allGatewaysFailedImgMsg), [])
  | gateway :: rest, _lastError =>
    let gatewayUrl := gateway ++ ipfsHash
    match env.httpGetBin gatewayUrl with
    | .ok d => (.ok { data := d.1, contentType := contentTypeOf d.2 }, [gatewayUrl])
    | .error e =>
      let r := tryGatewaysBin env ipfsHash rest (some e)
      (r.1, gatewayUrl :: r.2)

/-- Body of `fetchImageData`'s `try` block. -/
def fetchImageDataTry (env : Env) (imageUrl : String) :
    Except String ImageData × List String :=
  if jsStartsWith imageUrl "ipfs://" then
    tryGatewaysBin env (stripIpfs imageUrl) IPFS_GATEWAYS none
  else
    match env.httpGetBin imageUrl with
    | .ok d => (.ok { data := d.1, contentType := contentTypeOf d.2 }, [imageUrl])
    | .error e => (.error e, [imageUrl])

/-- Resource fetcher `fetchImageData`: the `try` body wrapped in the
function's own top-level `catch`, returning `null` (`none`) on any
thrown error. -/
def fetchImageData (env : Env) (imageUrl : String) :
    Option ImageData × List String :=
  let r := fetchImageDataTry env imageUrl
  (r.1.toOption, r.2)

/-- Per-token outcome object: `{tokenId, success: false, error}` or
`{tokenId, success: true, metadata, imageData}`. -/
inductive TokenResult where
  | failure (tokenId : JsVal) (error : String)
  | success (tokenId : JsVal) (metadata : JsData) (imageData : ImageData)
deriving DecidableEq, Repr

/-- Token id carried by a result. -/
def TokenResult.tokenId : TokenResult → JsVal
  | .failure t _ => t
  | .success t _ _ => t

/-- Success flag of a result. -/
def TokenResult.isSuccess : TokenResult → Bool
  | .failure _ _ => false
  | .success _ _ _ => true

/-- Token processor `processToken`: resolve the URI (falsy, i.e. `none`
or empty, is a failure), fetch the metadata (a falsy document or a falsy
`image` field is a failure), fetch the image bytes (a `none` is a
failure), otherwise succeed.  Threads the cache through the one stage
that touches it. -/
def processToken (env : Env) (cache : Cache) (contractAddress : String)
    (tokenId : JsVal) (infuraApiKey primaryProvider : String) :
    TokenResult × Cache :=
  match getTokenURI env cache contractAddress tokenId infuraApiKey primaryProvider with
  | (none, c1) => (.failure tokenId "Failed to get tokenURI", c1)
  | (some tokenURI, c1) =>
    if tokenURI = "" then (.failure tokenId "Failed to get tokenURI", c1)
    else
      match (fetchMetadata env tokenURI).1 with
      | none => (.failure tokenId "Failed to fetch metadata or no image found", c1)
      | some metadata =>
        match metadata.truthyImage with
        | none => (.failure tokenId "Failed to fetch metadata or no image found", c1)
        | some imageUrl =>
          match (fetchImageData env imageUrl).1 with
          | none => (.failure tokenId "Failed to download image", c1)
          | some imageData => (.success tokenId metadata imageData, c1)

/-- Sequential processing of a list of token ids (the linearisation of
`batch.map(processToken)` under `Promise.all`, which resolves in
submission order), threading the shared cache. -/
def processTokensSeq (env : Env) (contractAddress : String)
    (infuraApiKey primaryProvider : String) :
    List Nat → Cache → List TokenResult × Cache
  | [], c => ([], c)
  | t :: ts, c =>
    let r := processToken env c contractAddress (.num t) infuraApiKey primaryProvider
    let rs := processTokensSeq env contractAddress infuraApiKey primaryProvider ts r.2
    (r.1 :: rs.1, rs.2)

/-- Partition into batches of `batchSize = 5` (the `slice(i, i + 5)`
loop of `scrapeNFTs`), written with an accumulator for the batch being
filled so the recursion is structural. -/
def chunksOf5Aux (cur : List Nat) (curLen : Nat) : List Nat → List (List Nat)
  | [] => if cur.isEmpty then [] else [cur.reverse]
  | a :: as =>
    if curLen = 4 then (a :: cur).reverse :: chunksOf5Aux [] 0 as
    else chunksOf5Aux (a :: cur) (curLen + 1) as

/-- Batches of 5 token ids, in order. -/
def chunksOf5 (l : List Nat) : List (List Nat) := chunksOf5Aux [] 0 l

/-- Batch loop of `scrapeNFTs`: process the batches strictly in order,
each batch's `Promise.all` resolving to its results in submission order,
concatenating into the aggregate result array. -/
def processBatches (env : Env) (contractAddress : String)
    (infuraApiKey primaryProvider : String) :
    List (List Nat) → Cache → List TokenResult × Cache
  | [], c => ([], c)
  | b :: bs, c =>
    let r := processTokensSeq env contractAddress infuraApiKey primaryProvider b c
    let rs := processBatches env contractAddress infuraApiKey primaryProvider bs r.2
    (r.1 ++ rs.1, rs.2)

/-- Token id array built by `for (let i = Number(start); i <= Number(end); i++)`:
the integers of `[s, e]` in ascending order, empty when `s > e`. -/
def tokenIdRange (s e : Nat) : List Nat :=
  (List.range (e + 1 - s)).map (fun i => s + i)

/-- Aggregate result of a range scrape:
`{contractAddress, startTokenId, endTokenId, results}`. -/
structure ScrapeResult where
  contractAddress : String
  startTokenId : Nat
  endTokenId : Nat
  results : List TokenResult
deriving DecidableEq, Repr

/-- Collection scraper `scrapeNFTs`.  The `startTokenId`/`endTokenId`
parameters stand for the already-applied `Number()` conversions of the
route inputs.  Builds the ascending token id array, processes it in
batches of 5, and returns the aggregate object together with the final
cache. -/
def scrapeNFTs (env : Env) (cache : Cache) (contractAddress : String)
    (startTokenId endTokenId : Nat) (infuraApiKey primaryProvider : String) :
    ScrapeResult × Cache :=
  let tokenIds := tokenIdRange startTokenId endTokenId
  let r := processBatches env contractAddress infuraApiKey primaryProvider
    (chunksOf5 tokenIds) cache
  ({ contractAddress := contractAddress,
     startTokenId := startTokenId,
     endTokenId := endTokenId,
     results := r.1 }, r.2)

/-- Cap applied by the batch route handler before calling `scrapeNFTs`:
`Math.min(Number(startTokenId) + maxTokens, Number(endTokenId))` with
`maxTokens = 100`. -/
def actualEndTokenId (startTokenId endTokenId : Nat) : Nat :=
  min (startTokenId + 100) endTokenId

/-- Core of `handleScrapeRequest` on the valid-parameters path (params
present, `INFURA_API_KEY` set): scrape from the requested start to the
capped end and hand the aggregate to the zip packaging; no error or
marker is produced for a truncated range. -/
def handleScrapeRequest (env : Env) (cache : Cache) (contractAddress : String)
    (startTokenId endTokenId : Nat) (infuraApiKey : String) :
    ScrapeResult × Cache :=
  scrapeNFTs env cache contractAddress startTokenId
    (actualEndTokenId startTokenId endTokenId) infuraApiKey "infura"

/-- Probe loop over a plain list of endpoint URLs: first success wins,
exhaustion throws the fixed all-providers-failed error.
`tryFallbackProviders` over a table equals this loop over the filtered
url list (proved below); stating the fallback claims over it keeps them
readable. -/
def probeUrls (env : Env) : List String → Except String String × List String
  | [] => (.error allProvidersFailedMsg, [])
  | u :: rest =>
    match env.getBlockNumber u with
    | .ok _ => (.ok u, [u])
    | .error _ =>
      let r := probeUrls env rest
      (r.1, u :: r.2)

/-- Candidate endpoint URLs the fallback loop will probe for a given
primary provider name and API key. -/
def fallbackUrls (primaryProvider apiKey : String) : List String :=
  (RPC_PROVIDERS.filter (fun q => q.1 ≠ primaryProvider)).map (fun q => q.2 apiKey)

/-- Modelled from the spec's words, for comparison with the source's
substitution: the token id "zero-padded to 64 hexadecimal digits"
(lower-case hex rendering, `padStart`-ed to width 64). -/
def hexPad64Spec (tokenId : Nat) : String :=
  padStart64 (String.mk (Nat.toDigits 16 tokenId))

/-- Environment for witnesses: every probe succeeds on ankr only, the
`tokenURI` method resolves to an `ipfs://` pointer, the third gateway
serves the metadata and the first gateway serves the image bytes. -/
def envW : Env where
  getBlockNumber := fun u => if u = "https://rpc.ankr.com/eth" then .ok 19000000 else .error "probe failed"
  tokenURICall := fun _ _ _ => .ok "ipfs://h"
  uriCall := fun _ _ _ => .error "uri reverted"
  httpGetJson := fun u =>
    if u = "https://dweb.link/ipfs/h" then .ok (.jobj [("image", "ipfs://img")])
    else .error ("503 from " ++ u)
  httpGetBin := fun u =>
    if u = "https://ipfs.io/ipfs/img" then .ok ([1, 2, 3], some "image/png")
    else .error ("504 from " ++ u)

/-- Environment in which every external call fails with the message
"boom". -/
def envAllFail : Env where
  getBlockNumber := fun _ => .error "boom"
  tokenURICall := fun _ _ _ => .error "boom"
  uriCall := fun _ _ _ => .error "boom"
  httpGetJson := fun _ => .error "boom"
  httpGetBin := fun _ => .error "boom"

/-- Environment whose probes all fail with the message "connection refused A". -/
def envFailA : Env where
  getBlockNumber := fun _ => .error "connection refused A"
  tokenURICall := fun _ _ _ => .error "x"
  uriCall := fun _ _ _ => .error "x"
  httpGetJson := fun _ => .error "x"
  httpGetBin := fun _ => .error "x"

/-- Environment identical to `envFailA` except that every probe fails
with the message "connection refused B". -/
def envFailB : Env where
  getBlockNumber := fun _ => .error "connection refused B"
  tokenURICall := fun _ _ _ => .error "x"
  uriCall := fun _ _ _ => .error "x"
  httpGetJson := fun _ => .error "x"
  httpGetBin := fun _ => .error "x"

/-- Environment in which the chain is reachable, the `tokenURI` method
reverts and the `uri` method returns the bare placeholder string. -/
def envC4 : Env where
  getBlockNumber := fun _ => .ok 19000000
  tokenURICall := fun _ _ _ => .error "execution reverted"
  uriCall := fun _ _ _ => .ok "{id}"
  httpGetJson := fun _ => .error "x"
  httpGetBin := fun _ => .error "x"

/-- Environment in which the chain is reachable and every `tokenURI`
call resolves to the pointer string "u". -/
def envC7 : Env where
  getBlockNumber := fun _ => .ok 19000000
  tokenURICall := fun _ _ _ => .ok "u"
  uriCall := fun _ _ _ => .error "x"
  httpGetJson := fun _ => .error "x"
  httpGetBin := fun _ => .error "x"

/-! ## Helper lemmas -/

/-- A token result carries the token id it was built for. -/
theorem processToken_tokenId (env : Env) (c : Cache) (a : String) (t : JsVal)
    (k p : String) : (processToken env c a t k p).1.tokenId = t := by
  unfold processToken
  rcases h : getTokenURI env c a t k p with ⟨u, c1⟩
  cases u with
  | none => rfl
  | some uri =>
    by_cases he : uri = ""
    · simp only [he, if_true, reduceIte]
      rfl
    · simp only [he, reduceIte]
      cases hm : (fetchMetadata env uri).1 with
      | none => rfl
      | some md =>
        cases hi : md.truthyImage with
        | none => simp [hi, TokenResult.tokenId]
        | some imgUrl =>
          cases hd : (fetchImageData env imgUrl).1 with
          | none => simp [hi, hd, TokenResult.tokenId]
          | some img => simp [hi, hd, TokenResult.tokenId]

/-- Sequential token processing maps each id to one result, in order. -/
theorem processTokensSeq_map_tokenId (env : Env) (a k p : String)
    (l : List Nat) (c : Cache) :
    ((processTokensSeq env a k p l c).1.map TokenResult.tokenId) = l.map JsVal.num := by
  induction l generalizing c with
  | nil => simp [processTokensSeq]
  | cons t ts ih => simp [processTokensSeq, processToken_tokenId, ih]

/-- Sequential processing distributes over list append. -/
theorem processTokensSeq_append (env : Env) (a k p : String)
    (l1 l2 : List Nat) (c : Cache) :
    processTokensSeq env a k p (l1 ++ l2) c =
      ((processTokensSeq env a k p l1 c).1
          ++ (processTokensSeq env a k p l2 (processTokensSeq env a k p l1 c).2).1,
        (processTokensSeq env a k p l2 (processTokensSeq env a k p l1 c).2).2) := by
  induction l1 generalizing c with
  | nil => simp [processTokensSeq]
  | cons t ts ih => simp [processTokensSeq, ih]

/-- The batch loop is the sequential processing of the concatenated
batches. -/
theorem processBatches_eq_join (env : Env) (a k p : String)
    (bs : List (List Nat)) (c : Cache) :
    processBatches env a k p bs c = processTokensSeq env a k p bs.flatten c := by
  induction bs generalizing c with
  | nil => simp [processBatches, processTokensSeq]
  | cons b bs ih => simp [processBatches, ih, processTokensSeq_append]

/-- Concatenating the batches recovers the original id list. -/
theorem chunksOf5Aux_join (l : List Nat) : ∀ (cur : List Nat) (n : Nat),
    (chunksOf5Aux cur n l).flatten = cur.reverse ++ l := by
  induction l with
  | nil =>
    intro cur n
    unfold chunksOf5Aux
    split
    · simp_all [List.isEmpty_iff]
    · simp
  | cons a as ih =>
    intro cur n
    unfold chunksOf5Aux
    split
    · simp [ih]
    · simp [ih]

/-- Concatenating the batches of 5 recovers the original id list. -/
theorem chunksOf5_join (l : List Nat) : (chunksOf5 l).flatten = l := by
  simp [chunksOf5, chunksOf5Aux_join]

/-- The scraped results are the sequential processing of the full range. -/
theorem scrapeNFTs_results_eq (env : Env) (cache : Cache) (a : String)
    (s e : Nat) (k p : String) :
    (scrapeNFTs env cache a s e k p).1.results
      = (processTokensSeq env a k p (tokenIdRange s e) cache).1 := by
  simp [scrapeNFTs, processBatches_eq_join, chunksOf5_join]

/-- Token ids of the scraped results, in order. -/
theorem scrapeNFTs_map_tokenId (env : Env) (cache : Cache) (a : String)
    (s e : Nat) (k p : String) :
    (scrapeNFTs env cache a s e k p).1.results.map TokenResult.tokenId
      = (tokenIdRange s e).map JsVal.num := by
  rw [scrapeNFTs_results_eq, processTokensSeq_map_tokenId]

/-- Length of the scraped result array. -/
theorem scrapeNFTs_results_length (env : Env) (cache : Cache) (a : String)
    (s e : Nat) (k p : String) :
    (scrapeNFTs env cache a s e k p).1.results.length = e + 1 - s := by
  have h := congrArg List.length (scrapeNFTs_map_tokenId env cache a s e k p)
  simpa [tokenIdRange] using h

/-- The fallback loop over a provider table is the plain probe loop over
the filtered candidate endpoint URLs. -/
theorem tryFallbackProviders_eq (env : Env) (p k : String) :
    ∀ table, tryFallbackProviders env p k table
      = probeUrls env ((table.filter (fun q => q.1 ≠ p)).map (fun q => q.2 k)) := by
  intro table
  induction table with
  | nil => rfl
  | cons q rest ih =>
    rcases q with ⟨name, f⟩
    by_cases hname : name = p
    · simpa [tryFallbackProviders, hname] using ih
    · simp only [tryFallbackProviders, hname, List.filter_cons, if_false, reduceIte,
        ite_false, decide_not, List.map_cons]
      cases h : env.getBlockNumber (f k) with
      | ok n => simp [probeUrls, h, hname]
      | error e => simp [probeUrls, h, hname, ih]

/-- Probe loop, first-success case: the probes before the first healthy
endpoint all run and fail, the healthy endpoint is returned, nothing
after it is probed. -/
theorem probeUrls_first_ok (env : Env) :
    ∀ (pre : List String) (c : String) (post : List String) (n : Nat),
    (∀ u ∈ pre, ∃ e, env.getBlockNumber u = Except.error e) →
    env.getBlockNumber c = Except.ok n →
    probeUrls env (pre ++ c :: post) = (Except.ok c, pre ++ [c]) := by
  intro pre
  induction pre with
  | nil =>
    intro c post n _ hc
    simp [probeUrls, hc]
  | cons u us ih =>
    intro c post n hpre hc
    obtain ⟨e, he⟩ := hpre u (by simp)
    have hrec := ih c post n (fun v hv => hpre v (by simp [hv])) hc
    simp [probeUrls, he, hrec]

/-- Probe loop, exhaustion case: every probe runs and fails, and the
fixed all-providers-failed error is thrown. -/
theorem probeUrls_all_fail (env : Env) :
    ∀ urls, (∀ u ∈ urls, ∃ e, env.getBlockNumber u = Except.error e) →
    probeUrls env urls = (Except.error allProvidersFailedMsg, urls) := by
  intro urls
  induction urls with
  | nil => intro _; rfl
  | cons u us ih =>
    intro hall
    obtain ⟨e, he⟩ := hall u (by simp)
    have hrec := ih (fun v hv => hall v (by simp [hv]))
    simp [probeUrls, he, hrec]

/-- Gateway loop (JSON), first-success case: the gateways before the
first working one are requested and fail, the working one's payload is
returned, no later gateway is requested. -/
theorem tryGatewaysJson_first_ok (env : Env) (hash : String) :
    ∀ (pre : List String) (g : String) (rest : List String)
      (last0 : Option String) (d : JsData),
    (∀ gw ∈ pre, ∃ e, env.httpGetJson (gw ++ hash) = Except.error e) →
    env.httpGetJson (g ++ hash) = Except.ok d →
    tryGatewaysJson env hash (pre ++ g :: rest) last0
      = (Except.ok d, (pre ++ [g]).map (fun gw => gw ++ hash)) := by
  intro pre
  induction pre with
  | nil =>
    intro g rest last0 d _ hg
    simp [tryGatewaysJson, hg]
  | cons u us ih =>
    intro g rest last0 d hpre hg
    obtain ⟨e, he⟩ := hpre u (by simp)
    have hrec := ih g rest (some e) d (fun v hv => hpre v (by simp [hv])) hg
    simp [tryGatewaysJson, he, hrec]

/-- Gateway loop (JSON), exhaustion case: every gateway is requested and
fails, and the last gateway's error is thrown. -/
theorem tryGatewaysJson_all_fail (env : Env) (hash : String) :
    ∀ (pre : List String) (g : String) (eL : String) (last0 : Option String),
    (∀ gw ∈ pre, ∃ e, env.httpGetJson (gw ++ hash) = Except.error e) →
    env.httpGetJson (g ++ hash) = Except.error eL →
    tryGatewaysJson env hash (pre ++ [g]) last0
      = (Except.error eL, (pre ++ [g]).map (fun gw => gw ++ hash)) := by
  intro pre
  induction pre with
  | nil =>
    intro g eL last0 _ hg
    simp [tryGatewaysJson, hg]
  | cons u us ih =>
    intro g eL last0 hpre hg
    obtain ⟨e, he⟩ := hpre u (by simp)
    have hrec := ih g eL (some e) (fun v hv => hpre v (by simp [hv])) hg
    simp [tryGatewaysJson, he, hrec]

/-- Gateway loop (binary), first-success case. -/
theorem tryGatewaysBin_first_ok (env : Env) (hash : String) :
    ∀ (pre : List String) (g : String) (rest : List String)
      (last0 : Option String) (bytes : List Nat) (hdr : Option String),
    (∀ gw ∈ pre, ∃ e, env.httpGetBin (gw ++ hash) = Except.error e) →
    env.httpGetBin (g ++ hash) = Except.ok (bytes, hdr) →
    tryGatewaysBin env hash (pre ++ g :: rest) last0
      = (Except.ok { data := bytes, contentType := contentTypeOf hdr },
         (pre ++ [g]).map (fun gw => gw ++ hash)) := by
  intro pre
  induction pre with
  | nil =>
    intro g rest last0 bytes hdr _ hg
    simp [tryGatewaysBin, hg]
  | cons u us ih =>
    intro g rest last0 bytes hdr hpre hg
    obtain ⟨e, he⟩ := hpre u (by simp)
    have hrec := ih g rest (some e) bytes hdr (fun v hv => hpre v (by simp [hv])) hg
    simp [tryGatewaysBin, he, hrec]

/-- Gateway loop (binary), exhaustion case. -/
theorem tryGatewaysBin_all_fail (env : Env) (hash : String) :
    ∀ (pre : List String) (g : String) (eL : String) (last0 : Option String),
    (∀ gw ∈ pre, ∃ e, env.httpGetBin (gw ++ hash) = Except.error e) →
    env.httpGetBin (g ++ hash) = Except.error eL →
    tryGatewaysBin env hash (pre ++ [g]) last0
      = (Except.error eL, (pre ++ [g]).map (fun gw => gw ++ hash)) := by
  intro pre
  induction pre with
  | nil =>
    intro g eL last0 _ hg
    simp [tryGatewaysBin, hg]
  | cons u us ih =>
    intro g eL last0 hpre hg
    obtain ⟨e, he⟩ := hpre u (by simp)
    have hrec := ih g eL (some e) (fun v hv => hpre v (by simp [hv])) hg
    simp [tryGatewaysBin, he, hrec]

/-! ## Claim theorems -/

/-- C1: for every start ≤ end and every environment (i.e. regardless of
which individual tokens succeed or fail), `scrapeNFTs` returns a
`ScrapeResult` whose results array has exactly end − start + 1 entries,
one `TokenResult` per integer of the inclusive range, in ascending
tokenId order. -/
theorem scrape_range_coverage_c1 (env : Env) (cache : Cache) (a : String)
    (s e : Nat) (k p : String) (h : s ≤ e) :
    (scrapeNFTs env cache a s e k p).1.results.length = e - s + 1 ∧
    (scrapeNFTs env cache a s e k p).1.results.map TokenResult.tokenId
      = (List.range (e - s + 1)).map (fun i => JsVal.num (s + i)) := by
  have hm := scrapeNFTs_map_tokenId env cache a s e k p
  have hlen := scrapeNFTs_results_length env cache a s e k p
  have hn : e + 1 - s = e - s + 1 := by omega
  constructor
  · omega
  · rw [hm]
    simp only [tokenIdRange, hn, List.map_map]
    rfl

/-- Witness for C1 at start 2, end 4 in the environment `envW`. -/
theorem scrape_range_coverage_c1_witness :
    2 ≤ 4 ∧
    ((scrapeNFTs envW ([] : Cache) "0xA" 2 4 "k" "infura").1.results.length = 4 - 2 + 1 ∧
     (scrapeNFTs envW ([] : Cache) "0xA" 2 4 "k" "infura").1.results.map TokenResult.tokenId
       = (List.range (4 - 2 + 1)).map (fun i => JsVal.num (2 + i))) :=
  ⟨by decide, scrape_range_coverage_c1 envW ([] : Cache) "0xA" 2 4 "k" "infura" (by decide)⟩

/-- C10: when start > end, `scrapeNFTs` returns a well-formed
`ScrapeResult` carrying the converted bounds and an empty results array,
leaves the cache unchanged, and its output does not depend on the
network environment at all (no token is processed, no call is issued). -/
theorem scrape_empty_range_c10 (env env2 : Env) (cache : Cache) (a : String)
    (s e : Nat) (k p : String) (h : e < s) :
    (scrapeNFTs env cache a s e k p).1
      = { contractAddress := a, startTokenId := s, endTokenId := e, results := [] } ∧
    (scrapeNFTs env cache a s e k p).2 = cache ∧
    scrapeNFTs env cache a s e k p = scrapeNFTs env2 cache a s e k p := by
  have h0 : e + 1 - s = 0 := by omega
  have hr : tokenIdRange s e = [] := by simp [tokenIdRange, h0]
  refine ⟨?_, ?_, ?_⟩ <;>
    simp [scrapeNFTs, hr, chunksOf5, chunksOf5Aux, processBatches]

/-- Witness for C10 at start 5, end 3, with two unrelated environments. -/
theorem scrape_empty_range_c10_witness :
    3 < 5 ∧
    ((scrapeNFTs envW ([] : Cache) "0xA" 5 3 "k" "infura").1
       = { contractAddress := "0xA", startTokenId := 5, endTokenId := 3, results := [] } ∧
     (scrapeNFTs envW ([] : Cache) "0xA" 5 3 "k" "infura").2 = ([] : Cache) ∧
     scrapeNFTs envW ([] : Cache) "0xA" 5 3 "k" "infura"
       = scrapeNFTs envAllFail ([] : Cache) "0xA" 5 3 "k" "infura") :=
  ⟨by decide, scrape_empty_range_c10 envW envAllFail ([] : Cache) "0xA" 5 3 "k" "infura" (by decide)⟩

/-- C9: on the valid-parameters path the batch route handler silently
caps the scraped range: it calls `scrapeNFTs` with effective end
min(start + 100, end), so at most 101 tokens are processed, with no
error or marker for a truncated request. -/
theorem handler_caps_at_101_c9 (env : Env) (cache : Cache) (a : String)
    (s e : Nat) (key : String) (h : s ≤ e) :
    handleScrapeRequest env cache a s e key
      = scrapeNFTs env cache a s (min (s + 100) e) key "infura" ∧
    (handleScrapeRequest env cache a s e key).1.results.length
      = min (s + 100) e - s + 1 ∧
    (handleScrapeRequest env cache a s e key).1.results.length ≤ 101 := by
  have hl : (handleScrapeRequest env cache a s e key).1.results.length
      = min (s + 100) e + 1 - s :=
    scrapeNFTs_results_length env cache a s (min (s + 100) e) key "infura"
  exact ⟨rfl, by omega, by omega⟩

/-- Witness for C9 at start 0, end 1000: exactly 101 results. -/
theorem handler_caps_at_101_c9_witness :
    0 ≤ 1000 ∧
    (handleScrapeRequest envAllFail ([] : Cache) "0xC" 0 1000 "k"
       = scrapeNFTs envAllFail ([] : Cache) "0xC" 0 (min (0 + 100) 1000) "k" "infura" ∧
     (handleScrapeRequest envAllFail ([] : Cache) "0xC" 0 1000 "k").1.results.length
       = min (0 + 100) 1000 - 0 + 1 ∧
     (handleScrapeRequest envAllFail ([] : Cache) "0xC" 0 1000 "k").1.results.length ≤ 101) :=
  ⟨by decide, handler_caps_at_101_c9 envAllFail ([] : Cache) "0xC" 0 1000 "k" (by decide)⟩

/-- C2: `processToken` is total (the embedding returns a `TokenResult`
for every input, never an error value), every failure path carries one
of the three human-readable failure messages, and a success is produced
only when all four stages succeeded: a (truthy) URI was resolved, the
metadata document was fetched and was truthy, it carried a truthy
`image` field, and the image bytes were downloaded. -/
theorem processToken_total_c2 (env : Env) (cache : Cache) (a : String)
    (t : JsVal) (k p : String) :
    (match (processToken env cache a t k p).1 with
     | .failure tid m => tid = t ∧
         (m = "Failed to get tokenURI" ∨
          m = "Failed to fetch metadata or no image found" ∨
          m = "Failed to download image")
     | .success tid md img => tid = t ∧ ∃ uri imgUrl,
         (getTokenURI env cache a t k p).1 = some uri ∧ uri ≠ "" ∧
         (fetchMetadata env uri).1 = some md ∧ md.truthyImage = some imgUrl ∧
         (fetchImageData env imgUrl).1 = some img) := by
  unfold processToken
  rcases h : getTokenURI env cache a t k p with ⟨u, c1⟩
  cases u with
  | none => simp
  | some uri =>
    by_cases he : uri = ""
    · simp [he]
    · simp only [he, reduceIte]
      cases hm : (fetchMetadata env uri).1 with
      | none => simp
      | some md =>
        cases hi : md.truthyImage with
        | none => simp [hi]
        | some imgUrl =>
          cases hd : (fetchImageData env imgUrl).1 with
          | none => simp [hi, hd]
          | some img =>
            simp only [hi, hd]
            exact ⟨trivial, uri, imgUrl, rfl, he, hm, rfl, hd⟩

/-- C8: `getTokenURI` only ever caches the value it is about to return
from a successful contract call: a `none` (failed) resolution leaves the
cache unchanged, and any cache change is exactly the insertion of the
returned value under the call's own cache key. -/
theorem tokenURICache_only_successes_c8 (env : Env) (cache : Cache)
    (a : String) (t : JsVal) (k p : String) :
    ((getTokenURI env cache a t k p).1 = none →
      (getTokenURI env cache a t k p).2 = cache) ∧
    ((getTokenURI env cache a t k p).2 ≠ cache →
      ∃ v, (getTokenURI env cache a t k p).1 = some v ∧
        (getTokenURI env cache a t k p).2 = cacheSet cache (getCacheKey a t) v) ∧
    (∀ v, (getTokenURI env cache a t k p).1 = some v →
      (getTokenURI env cache a t k p).2 = cache ∨
      (getTokenURI env cache a t k p).2 = cacheSet cache (getCacheKey a t) v) := by
  unfold getTokenURI
  cases hc : cacheGet cache (getCacheKey a t) with
  | some v => simp [hc]
  | none =>
    cases hw : (getWeb3Instance env p k).1 with
    | error e => simp [hc, hw]
    | ok ep =>
      cases ht : env.tokenURICall ep a t with
      | ok turi =>
        simp only [hc, hw, ht]
        refine ⟨by simp, fun _ => ⟨turi, by simp⟩, fun v hv => ?_⟩
        simp only [Option.some.injEq] at hv
        exact Or.inr (by rw [hv])
      | error e1 =>
        cases hu : env.uriCall ep a t with
        | ok uri =>
          simp only [hc, hw, ht, hu]
          refine ⟨by simp, fun _ => ⟨jsReplace uri "{id}" (padStart64 t.jsToString), by simp⟩,
            fun v hv => ?_⟩
          simp only [Option.some.injEq] at hv
          exact Or.inr (by rw [hv])
        | error e2 => simp [hc, hw, ht, hu]

/-- Witness for C8: in the all-failing environment the resolution fails
and the cache is left unchanged. -/
theorem tokenURICache_only_successes_c8_witness :
    (getTokenURI envAllFail ([] : Cache) "0xA" (JsVal.num 1) "k" "infura").2 = ([] : Cache) :=
  (tokenURICache_only_successes_c8 envAllFail ([] : Cache) "0xA" (JsVal.num 1) "k" "infura").1
    (by decide)

/-- Counterexample to C7: the token id "05" (string) and 5 (number) are
numerically equal under JS `Number()` coercion, and the addresses agree
up to case, yet the two calls produce different cache keys and address
different cache entries — after the first call caches its pointer, the
second call's key still misses.  The key uses the token id's string
form, not its numeric identity. -/
theorem cacheKey_numeric_identity_c7_counterexample :
    JsVal.toNumber (JsVal.str "05") = some 5 ∧
    JsVal.toNumber (JsVal.num 5) = some 5 ∧
    getCacheKey "0xAb" (JsVal.str "05") ≠ getCacheKey "0xAB" (JsVal.num 5) ∧
    cacheGet (getTokenURI envC7 ([] : Cache) "0xAb" (JsVal.str "05") "k" "infura").2
        (getCacheKey "0xAB" (JsVal.num 5)) = none ∧
    cacheGet (getTokenURI envC7 ([] : Cache) "0xAb" (JsVal.str "05") "k" "infura").2
        (getCacheKey "0xAb" (JsVal.str "05")) = some "u" := by decide

/-- C7 amended: cache keys are case-normalized on the contract address,
and the token id component is its interpolated string form; two
`getTokenURI` calls address the same cache entry whenever their
addresses agree up to letter case and their token ids have identical
string forms. -/
theorem cacheKey_normalization_c7_amended (a1 a2 : String) (t1 t2 : JsVal)
    (c : Cache) (ha : jsToLower a1 = jsToLower a2)
    (ht : t1.jsToString = t2.jsToString) :
    getCacheKey a1 t1 = getCacheKey a2 t2 ∧
    cacheGet c (getCacheKey a1 t1) = cacheGet c (getCacheKey a2 t2) := by
  have hk : getCacheKey a1 t1 = getCacheKey a2 t2 := by
    simp [getCacheKey, ha, ht]
  exact ⟨hk, by rw [hk]⟩

/-- Witness for the amended C7 on addresses differing in case and on a
numeric and a string token id with the same string form. -/
theorem cacheKey_normalization_c7_amended_witness :
    jsToLower "0xAb" = jsToLower "0xaB" ∧
    (JsVal.num 5).jsToString = (JsVal.str "5").jsToString ∧
    (getCacheKey "0xAb" (JsVal.num 5) = getCacheKey "0xaB" (JsVal.str "5") ∧
     cacheGet ([("0xab-5", "u")] : Cache) (getCacheKey "0xAb" (JsVal.num 5))
       = cacheGet ([("0xab-5", "u")] : Cache) (getCacheKey "0xaB" (JsVal.str "5"))) :=
  ⟨by decide, by decide,
   cacheKey_normalization_c7_amended "0xAb" "0xaB" (JsVal.num 5) (JsVal.str "5")
     ([("0xab-5", "u")] : Cache) (by decide) (by decide)⟩

/-- Counterexample to C4: with token id 255, a reverting `tokenURI`
method and a fallback `uri` method returning the bare placeholder, the
value returned (and cached) is the 64-padded decimal string "0…0255",
not the 64-padded hexadecimal rendering "0…0ff" the claim requires. -/
theorem uriPlaceholder_decimal_c4_counterexample :
    (getTokenURI envC4 ([] : Cache) "0xabc" (JsVal.num 255) "key" "infura").1
      = some (padStart64 "255") ∧
    (getTokenURI envC4 ([] : Cache) "0xabc" (JsVal.num 255) "key" "infura").2
      = cacheSet ([] : Cache) (getCacheKey "0xabc" (JsVal.num 255)) (padStart64 "255") ∧
    padStart64 "255" ≠ hexPad64Spec 255 ∧
    (getTokenURI envC4 ([] : Cache) "0xabc" (JsVal.num 255) "key" "infura").1
      ≠ some (hexPad64Spec 255) := by decide

/-- C4 amended: when the primary `tokenURI` call fails and the fallback
`uri` call returns a string, the placeholder's first occurrence is
substituted with the token id's decimal string rendering zero-padded to
64 characters, and that substituted string is cached and returned. -/
theorem uriPlaceholder_decimal_c4_amended (env : Env) (cache : Cache)
    (a : String) (t : JsVal) (k p ep u e1 : String)
    (hmiss : cacheGet cache (getCacheKey a t) = none)
    (hw : (getWeb3Instance env p k).1 = Except.ok ep)
    (ht : env.tokenURICall ep a t = Except.error e1)
    (hu : env.uriCall ep a t = Except.ok u) :
    getTokenURI env cache a t k p
      = (some (jsReplace u "{id}" (padStart64 t.jsToString)),
         cacheSet cache (getCacheKey a t)
           (jsReplace u "{id}" (padStart64 t.jsToString))) := by
  unfold getTokenURI
  simp [hmiss, hw, ht, hu]

/-- Witness for the amended C4 at token id 255 in `envC4`. -/
theorem uriPlaceholder_decimal_c4_amended_witness :
    cacheGet ([] : Cache) (getCacheKey "0xabc" (JsVal.num 255)) = none ∧
    (getWeb3Instance envC4 "infura" "key").1
      = Except.ok "https://mainnet.infura.io/v3/key" ∧
    envC4.tokenURICall "https://mainnet.infura.io/v3/key" "0xabc" (JsVal.num 255)
      = Except.error "execution reverted" ∧
    envC4.uriCall "https://mainnet.infura.io/v3/key" "0xabc" (JsVal.num 255)
      = Except.ok "{id}" ∧
    getTokenURI envC4 ([] : Cache) "0xabc" (JsVal.num 255) "key" "infura"
      = (some (jsReplace "{id}" "{id}" (padStart64 (JsVal.num 255).jsToString)),
         cacheSet ([] : Cache) (getCacheKey "0xabc" (JsVal.num 255))
           (jsReplace "{id}" "{id}" (padStart64 (JsVal.num 255).jsToString))) :=
  ⟨by decide, by decide, by decide, by decide,
   uriPlaceholder_decimal_c4_amended envC4 ([] : Cache) "0xabc" (JsVal.num 255)
     "key" "infura" "https://mainnet.infura.io/v3/key" "{id}" "execution reverted"
     (by decide) (by decide) (by decide) (by decide)⟩

/-- C5: for an `ipfs://` URI, if the gateways before position k all fail
and gateway k succeeds, `fetchMetadata` (resp. `fetchImageData`) returns
gateway k's payload and its request trace is exactly the first k gateway
URLs in list order — nothing after k is attempted. -/
theorem gateway_short_circuit_c5 (env : Env) (uriJ uriB : String)
    (preJ postJ preB postB : List String) (gJ gB : String) (d : JsData)
    (bytes : List Nat) (hdr : Option String)
    (hipfsJ : jsStartsWith uriJ "ipfs://" = true)
    (hsplitJ : IPFS_GATEWAYS = preJ ++ gJ :: postJ)
    (hpreJ : ∀ gw ∈ preJ, ∃ e, env.httpGetJson (gw ++ stripIpfs uriJ) = Except.error e)
    (hgJ : env.httpGetJson (gJ ++ stripIpfs uriJ) = Except.ok d)
    (hipfsB : jsStartsWith uriB "ipfs://" = true)
    (hsplitB : IPFS_GATEWAYS = preB ++ gB :: postB)
    (hpreB : ∀ gw ∈ preB, ∃ e, env.httpGetBin (gw ++ stripIpfs uriB) = Except.error e)
    (hgB : env.httpGetBin (gB ++ stripIpfs uriB) = Except.ok (bytes, hdr)) :
    fetchMetadata env uriJ
      = (some d, (preJ ++ [gJ]).map (fun gw => gw ++ stripIpfs uriJ)) ∧
    fetchImageData env uriB
      = (some { data := bytes, contentType := contentTypeOf hdr },
         (preB ++ [gB]).map (fun gw => gw ++ stripIpfs uriB)) := by
  constructor
  · unfold fetchMetadata fetchMetadataTry
    simp only [hipfsJ, if_true, reduceIte]
    rw [hsplitJ, tryGatewaysJson_first_ok env (stripIpfs uriJ) preJ gJ postJ none d hpreJ hgJ]
    rfl
  · unfold fetchImageData fetchImageDataTry
    simp only [hipfsB, if_true, reduceIte]
    rw [hsplitB,
      tryGatewaysBin_first_ok env (stripIpfs uriB) preB gB postB none bytes hdr hpreB hgB]
    rfl

/-- Witness for C5 in `envW`: the metadata is served by the third
gateway after two failures, the image by the first gateway. -/
theorem gateway_short_circuit_c5_witness :
    jsStartsWith "ipfs://h" "ipfs://" = true ∧
    IPFS_GATEWAYS
      = ["https://ipfs.io/ipfs/", "https://gateway.pinata.cloud/ipfs/"]
          ++ "https://dweb.link/ipfs/"
            :: ["https://ipfs.fleek.co/ipfs/", "https://gateway.ipfs.io/ipfs/",
                "https://cf-ipfs.com/ipfs/", "https://cloudflare-ipfs.com/ipfs/"] ∧
    (fetchMetadata envW "ipfs://h"
       = (some (JsData.jobj [("image", "ipfs://img")]),
          (["https://ipfs.io/ipfs/", "https://gateway.pinata.cloud/ipfs/"]
              ++ ["https://dweb.link/ipfs/"]).map (fun gw => gw ++ stripIpfs "ipfs://h")) ∧
     fetchImageData envW "ipfs://img"
       = (some { data := [1, 2, 3], contentType := contentTypeOf (some "image/png") },
          (([] : List String) ++ ["https://ipfs.io/ipfs/"]).map
            (fun gw => gw ++ stripIpfs "ipfs://img"))) :=
  ⟨by decide, by decide,
   gateway_short_circuit_c5 envW "ipfs://h" "ipfs://img"
     ["https://ipfs.io/ipfs/", "https://gateway.pinata.cloud/ipfs/"]
     ["https://ipfs.fleek.co/ipfs/", "https://gateway.ipfs.io/ipfs/",
      "https://cf-ipfs.com/ipfs/", "https://cloudflare-ipfs.com/ipfs/"]
     ([] : List String)
     ["https://gateway.pinata.cloud/ipfs/", "https://dweb.link/ipfs/",
      "https://ipfs.fleek.co/ipfs/", "https://gateway.ipfs.io/ipfs/",
      "https://cf-ipfs.com/ipfs/", "https://cloudflare-ipfs.com/ipfs/"]
     "https://dweb.link/ipfs/" "https://ipfs.io/ipfs/"
     (JsData.jobj [("image", "ipfs://img")]) [1, 2, 3] (some "image/png")
     (by decide) (by decide)
     (by
       intro gw hg
       fin_cases hg
       · exact ⟨"503 from https://ipfs.io/ipfs/h", by decide⟩
       · exact ⟨"503 from https://gateway.pinata.cloud/ipfs/h", by decide⟩)
     (by decide) (by decide) (by decide)
     (by intro gw hg; simp at hg)
     (by decide)⟩

/-- Counterexample to C3: in an environment where every request fails
with "boom", the inner try-bodies of the fetchers do raise the last
error, but the functions themselves return `none` (JS `null`) to their
direct caller — no structured error reaches the caller. -/
theorem fetchers_swallow_c3_counterexample :
    (fetchMetadataTry envAllFail "ipfs://bafy").1 = Except.error "boom" ∧
    (fetchMetadata envAllFail "ipfs://bafy").1 = none ∧
    (fetchImageDataTry envAllFail "ipfs://bafy").1 = Except.error "boom" ∧
    (fetchImageData envAllFail "ipfs://bafy").1 = none ∧
    (fetchMetadataTry envAllFail "https://host/meta.json").1 = Except.error "boom" ∧
    (fetchMetadata envAllFail "https://host/meta.json").1 = none ∧
    (fetchImageDataTry envAllFail "https://host/img.png").1 = Except.error "boom" ∧
    (fetchImageData envAllFail "https://host/img.png").1 = none := by decide

/-- C3 amended: on total failure the fetchers raise the structured error
only inside their own bodies — the last gateway error for an `ipfs://`
URI, the direct GET error otherwise — and each function's own top-level
catch converts it to a `null` (`none`) return, so no error propagates to
the direct caller. -/
theorem fetchers_catch_c3_amended (env : Env) (uri durl eJ eB eD eDB : String)
    (hipfs : jsStartsWith uri "ipfs://" = true)
    (hallJ : ∀ gw ∈ IPFS_GATEWAYS.dropLast,
      ∃ e, env.httpGetJson (gw ++ stripIpfs uri) = Except.error e)
    (hlastJ : env.httpGetJson ("https://cloudflare-ipfs.com/ipfs/" ++ stripIpfs uri)
      = Except.error eJ)
    (hallB : ∀ gw ∈ IPFS_GATEWAYS.dropLast,
      ∃ e, env.httpGetBin (gw ++ stripIpfs uri) = Except.error e)
    (hlastB : env.httpGetBin ("https://cloudflare-ipfs.com/ipfs/" ++ stripIpfs uri)
      = Except.error eB)
    (hdirect : jsStartsWith durl "ipfs://" = false)
    (hdJ : env.httpGetJson durl = Except.error eD)
    (hdB : env.httpGetBin durl = Except.error eDB) :
    (fetchMetadataTry env uri).1 = Except.error eJ ∧
    (fetchMetadata env uri).1 = none ∧
    (fetchImageDataTry env uri).1 = Except.error eB ∧
    (fetchImageData env uri).1 = none ∧
    (fetchMetadataTry env durl).1 = Except.error eD ∧
    (fetchMetadata env durl).1 = none ∧
    (fetchImageDataTry env durl).1 = Except.error eDB ∧
    (fetchImageData env durl).1 = none := by
  have hsplit : IPFS_GATEWAYS
      = IPFS_GATEWAYS.dropLast ++ ["https://cloudflare-ipfs.com/ipfs/"] := by decide
  have hmt : (fetchMetadataTry env uri).1 = Except.error eJ := by
    unfold fetchMetadataTry
    simp only [hipfs, if_true, reduceIte]
    rw [hsplit, tryGatewaysJson_all_fail env (stripIpfs uri) IPFS_GATEWAYS.dropLast
      "https://cloudflare-ipfs.com/ipfs/" eJ none hallJ hlastJ]
  have hit : (fetchImageDataTry env uri).1 = Except.error eB := by
    unfold fetchImageDataTry
    simp only [hipfs, if_true, reduceIte]
    rw [hsplit, tryGatewaysBin_all_fail env (stripIpfs uri) IPFS_GATEWAYS.dropLast
      "https://cloudflare-ipfs.com/ipfs/" eB none hallB hlastB]
  have hmtd : (fetchMetadataTry env durl).1 = Except.error eD := by
    unfold fetchMetadataTry
    simp only [hdirect, Bool.false_eq_true, if_false, reduceIte, hdJ]
  have hitd : (fetchImageDataTry env durl).1 = Except.error eDB := by
    unfold fetchImageDataTry
    simp only [hdirect, Bool.false_eq_true, if_false, reduceIte, hdB]
  refine ⟨hmt, ?_, hit, ?_, hmtd, ?_, hitd, ?_⟩ <;>
    simp [fetchMetadata, fetchImageData, hmt, hit, hmtd, hitd, Except.toOption]

/-- Witness for the amended C3 in the all-failing environment. -/
theorem fetchers_catch_c3_amended_witness :
    jsStartsWith "ipfs://bafy" "ipfs://" = true ∧
    jsStartsWith "https://host/x" "ipfs://" = false ∧
    ((fetchMetadataTry envAllFail "ipfs://bafy").1 = Except.error "boom" ∧
     (fetchMetadata envAllFail "ipfs://bafy").1 = none ∧
     (fetchImageDataTry envAllFail "ipfs://bafy").1 = Except.error "boom" ∧
     (fetchImageData envAllFail "ipfs://bafy").1 = none ∧
     (fetchMetadataTry envAllFail "https://host/x").1 = Except.error "boom" ∧
     (fetchMetadata envAllFail "https://host/x").1 = none ∧
     (fetchImageDataTry envAllFail "https://host/x").1 = Except.error "boom" ∧
     (fetchImageData envAllFail "https://host/x").1 = none) :=
  ⟨by decide, by decide,
   fetchers_catch_c3_amended envAllFail "ipfs://bafy" "https://host/x"
     "boom" "boom" "boom" "boom"
     (by decide)
     (fun gw _ => ⟨"boom", rfl⟩) rfl
     (fun gw _ => ⟨"boom", rfl⟩) rfl
     (by decide) rfl rfl⟩

/-- Counterexample to C6: two environments whose candidates fail with
different last errors produce the identical all-providers-failed result;
the raised error is a fixed message and does not carry the last error. -/
theorem provider_error_not_carried_c6_counterexample :
    getWeb3Instance envFailA "infura" "k" = getWeb3Instance envFailB "infura" "k" ∧
    (getWeb3Instance envFailA "infura" "k").1 = Except.error allProvidersFailedMsg ∧
    envFailA.getBlockNumber "https://ethereum.publicnode.com"
      = Except.error "connection refused A" ∧
    envFailB.getBlockNumber "https://ethereum.publicnode.com"
      = Except.error "connection refused B" ∧
    allProvidersFailedMsg ≠ "connection refused A" ∧
    allProvidersFailedMsg ≠ "connection refused B" := by decide

/-- C6 amended: when the primary probe fails, the fallback loop walks
the provider table in declaration order, skipping the entry named like
the primary, probes each candidate endpoint once, and returns the first
whose block-height probe succeeds; when every candidate fails it raises
the fixed all-providers-failed error (a constant message, not carrying
the last error). -/
theorem provider_fallback_c6_amended (env : Env) (p k e0 : String)
    (hp : env.getBlockNumber (primaryProviderUrl p k) = Except.error e0) :
    (∀ pre c post n, fallbackUrls p k = pre ++ c :: post →
        (∀ u ∈ pre, ∃ e, env.getBlockNumber u = Except.error e) →
        env.getBlockNumber c = Except.ok n →
        getWeb3Instance env p k
          = (Except.ok c, primaryProviderUrl p k :: (pre ++ [c]))) ∧
    ((∀ u ∈ fallbackUrls p k, ∃ e, env.getBlockNumber u = Except.error e) →
        getWeb3Instance env p k
          = (Except.error allProvidersFailedMsg,
             primaryProviderUrl p k :: fallbackUrls p k)) := by
  have hbase : getWeb3Instance env p k
      = ((probeUrls env (fallbackUrls p k)).1,
         primaryProviderUrl p k :: (probeUrls env (fallbackUrls p k)).2) := by
    unfold getWeb3Instance
    simp only [hp]
    rw [tryFallbackProviders_eq env p k RPC_PROVIDERS]
    rfl
  constructor
  · intro pre c post n hsplit hpre hc
    rw [hbase, hsplit, probeUrls_first_ok env pre c post n hpre hc]
  · intro hall
    rw [hbase, probeUrls_all_fail env _ hall]

/-- Witness for the amended C6 in `envW`: the primary infura probe
fails, the alchemy candidate fails, ankr succeeds and is returned. -/
theorem provider_fallback_c6_amended_witness :
    envW.getBlockNumber (primaryProviderUrl "infura" "k") = Except.error "probe failed" ∧
    fallbackUrls "infura" "k"
      = ["https://eth-mainnet.g.alchemy.com/v2/k"]
          ++ "https://rpc.ankr.com/eth"
            :: ["https://cloudflare-eth.com", "https://ethereum.publicnode.com"] ∧
    envW.getBlockNumber "https://rpc.ankr.com/eth" = Except.ok 19000000 ∧
    getWeb3Instance envW "infura" "k"
      = (Except.ok "https://rpc.ankr.com/eth",
         primaryProviderUrl "infura" "k"
           :: (["https://eth-mainnet.g.alchemy.com/v2/k"] ++ ["https://rpc.ankr.com/eth"])) :=
  ⟨by decide, by decide, by decide,
   (provider_fallback_c6_amended envW "infura" "k" "probe failed" (by decide)).1
     ["https://eth-mainnet.g.alchemy.com/v2/k"] "https://rpc.ankr.com/eth"
     ["https://cloudflare-eth.com", "https://ethereum.publicnode.com"] 19000000
     (by decide)
     (by
       intro u hu
       fin_cases hu
       exact ⟨"probe failed", by decide⟩)
     (by decide)⟩
